import Mathlib

/-!
# Verification of the gantry firmware motion core

Shallow embedding of the motion-control firmware
(`Nivel_Regulatorio/Nivel_Regulatorio/` and the unnamed driver variants) of the
lettuce-harvester repository, together with proofs settling the frozen claims
about its specification.

Conventions:
* C `uint32_t` arithmetic is modelled over `Nat` with an explicit `% U32`
  wherever the C expression can wrap; `uint16_t` stores use `% U16`.
* C `int32_t` positions are modelled as `Int`; theorems carry the
  `int32`-range hypotheses where the C subtraction would otherwise overflow
  (overflow of signed arithmetic is undefined behaviour in C).
* Fuel-bounded recursion mirrors the C loop bounds exactly
  (e.g. the 10-iteration cap of `sqrt_precise`).
-/

/-- 2^32, the modulus of C `uint32_t` arithmetic. -/
def U32 : Nat := 4294967296

/-- 2^16, the modulus of C `uint16_t` stores. -/
def U16 : Nat := 65536

/-- C `uint32_t` subtraction `a - b` (wraps modulo 2^32); both arguments are
assumed reduced (`< U32`), as they are at every use site in the firmware. -/
def u32_sub (a b : Nat) : Nat := (a + U32 - b) % U32

/-- One step of the integer Newton iteration used by `sqrt_precise`:
`y = (x + value / x) / 2` (from `moves/motion_profile.c`, line 35). -/
def sqrt_newton_next (value x : Nat) : Nat := (x + value / x) / 2

/-- The `for (int i = 0; i < 10 && y < x; i++)` loop of `sqrt_precise`
(`moves/motion_profile.c`, lines 33-36): the state is `(x, y)`; while fuel
remains and `y < x`, set `x := y` and recompute `y`; the result is `x`. -/
def sqrt_precise_loop (value : Nat) : Nat → Nat → Nat → Nat
  | 0, x, _ => x
  | fuel + 1, x, y =>
    if y < x then sqrt_precise_loop value fuel y (sqrt_newton_next value y) else x

/-- Function `sqrt_precise` from `moves/motion_profile.c`, lines 24-39: Newton-Raphson
integer square root with the iteration count capped at 10.  Exact for inputs 0
and 1 by the early returns; otherwise starts from `x = value`,
`y = (value + 1) / 2` and runs the capped loop. -/
def sqrt_precise (value : Nat) : Nat :=
  if value = 0 then 0
  else if value = 1 then 1
  else sqrt_precise_loop value 10 value ((value + 1) / 2)

/-- Enum `profile_state_t` from `moves/motion_profile.h`. -/
inductive profile_state_t where
  | PROFILE_IDLE
  | PROFILE_ACCELERATING
  | PROFILE_CONSTANT
  | PROFILE_DECELERATING
  | PROFILE_COMPLETED
deriving Repr, DecidableEq

/-- Struct `motion_profile_t` from `moves/motion_profile.h`.  The step-count fields
are C `int32_t` but are only ever assigned non-negative values that fit, so
they are modelled as `Nat`; the bookkeeping fields `decel_start_pos` and
`last_update_ms`, which no claim mentions, are omitted. -/
structure motion_profile_t where
  start_position : Int
  target_position : Int
  total_steps : Nat
  current_speed : Nat
  target_speed : Nat
  max_speed : Nat
  acceleration : Nat
  state : profile_state_t
  accel_steps : Nat
  decel_steps : Nat
  constant_steps : Nat
deriving Repr, DecidableEq

/-- The all-zero `motion_profile_t`, as produced by the C zero initializer of
the axis globals (`stepper_axis_t horizontal_axis = {0}`). -/
def profile0 : motion_profile_t :=
  ⟨0, 0, 0, 0, 0, 0, 0, profile_state_t.PROFILE_IDLE, 0, 0, 0⟩

/-- Function `motion_profile_setup` from `moves/motion_profile.c`, lines 41-94.
`min_speed` is the `MIN_SPEED` config macro (500 in
`Nivel_Regulatorio/config/system_config.h`; 100 in the archived variant).
The uint32 subtraction `v_max_sq - v_min_sq` wraps modulo 2^32 when
`max_speed < min_speed` (`u32_sub`); the uint32 sum `v_min_sq + 2*a*accel`
is reduced `% U32`; the store of `sqrt_precise` into the `uint16_t`
`target_speed` truncates `% U16` before the cap comparison.
`acceleration = 0` would be a division by zero in C (undefined behaviour);
theorems assume `0 < acceleration`. -/
def motion_profile_setup (min_speed : Nat) (p : motion_profile_t)
    (current_pos target_pos : Int) (max_speed acceleration : Nat) :
    motion_profile_t :=
  let total_steps := (target_pos - current_pos).natAbs
  let p :=
    { p with
      start_position := current_pos
      target_position := target_pos
      total_steps := total_steps
      max_speed := max_speed
      acceleration := acceleration
      current_speed := min_speed }
  if total_steps = 0 then { p with state := profile_state_t.PROFILE_IDLE }
  else
    let v_max_sq := max_speed * max_speed
    let v_min_sq := min_speed * min_speed
    let accel_distance := u32_sub v_max_sq v_min_sq / (2 * acceleration)
    let min_distance_for_trapezoid := 2 * accel_distance
    if total_steps ≤ min_distance_for_trapezoid then
      let accel_steps := total_steps / 2
      let decel_steps := total_steps - accel_steps
      let max_reachable_sq := (v_min_sq + 2 * acceleration * accel_steps) % U32
      let stored := sqrt_precise max_reachable_sq % U16
      let target_speed := if stored > max_speed then max_speed else stored
      { p with
        accel_steps := accel_steps
        decel_steps := decel_steps
        constant_steps := 0
        target_speed := target_speed
        state := profile_state_t.PROFILE_ACCELERATING }
    else
      { p with
        accel_steps := accel_distance
        decel_steps := accel_distance
        constant_steps := total_steps - accel_distance - accel_distance
        target_speed := max_speed
        state := profile_state_t.PROFILE_ACCELERATING }

/-- Profile synthesis exactly as claim C1 states it (from the spec, §4.2):
`d_acc = v_max² / (2·a)`; trapezoid iff `d ≥ 2·d_acc` with
`accel = decel = d_acc`, `constant = d - 2·d_acc`, peak `v_max`; otherwise
triangle with `accel = d/2`, `decel = d - accel`, `constant = 0`, peak
`sqrt(2·a·accel_steps)` capped at `v_max`.  Result tuple:
`(accel_steps, constant_steps, decel_steps, peak_speed)`. -/
def profile_synthesis_claimed (d v_max a : Nat) : Nat × Nat × Nat × Nat :=
  let d_acc := v_max * v_max / (2 * a)
  if d ≥ 2 * d_acc then
    (d_acc, d - 2 * d_acc, d_acc, v_max)
  else
    let accel := d / 2
    (accel, 0, d - accel, min (Nat.sqrt (2 * a * accel)) v_max)

/-- Profile synthesis as the amended claim C1 states it:
`d_acc = (v_max² - v_min²) / (2·a)` (integer division); trapezoid iff
`d > 2·d_acc`; in the triangular case the peak is the firmware's capped
Newton square root of `v_min² + 2·a·accel_steps`, truncated to 16 bits,
then capped at `v_max`.  Result tuple:
`(accel_steps, constant_steps, decel_steps, peak_speed)`. -/
def profile_synthesis_amended (min_speed d v_max a : Nat) : Nat × Nat × Nat × Nat :=
  let d_acc := (v_max * v_max - min_speed * min_speed) / (2 * a)
  if d > 2 * d_acc then
    (d_acc, d - 2 * d_acc, d_acc, v_max)
  else
    let accel := d / 2
    (accel, 0, d - accel,
      min (sqrt_precise (min_speed * min_speed + 2 * a * accel) % U16) v_max)

lemma u32_sub_eq_sub (a b : Nat) (hba : b ≤ a) (ha : a < U32) :
    u32_sub a b = a - b := by
  unfold u32_sub
  have h1 : a + U32 - b = U32 + (a - b) := by omega
  rw [h1, Nat.add_mod_left, Nat.mod_eq_of_lt (by omega)]

/-- C1 (claim as stated is false): at `start = 0`, `target = 1000`,
`v_max = 1000`, `a = 1000` (with `MIN_SPEED = 500`), the claim's
`d_acc = v_max²/(2a) = 500` predicts a trapezoid `(500, 0, 500, 1000)`,
but `motion_profile_setup` computes
`accel_distance = (v_max² - v_min²)/(2a) = 375` and produces
`(375, 250, 375, 1000)`. -/
theorem profile_synthesis_claim_counterexample :
    ((motion_profile_setup 500 profile0 0 1000 1000 1000).accel_steps,
     (motion_profile_setup 500 profile0 0 1000 1000 1000).constant_steps,
     (motion_profile_setup 500 profile0 0 1000 1000 1000).decel_steps,
     (motion_profile_setup 500 profile0 0 1000 1000 1000).target_speed) ≠
      profile_synthesis_claimed 1000 1000 1000 := by decide

/-- C1 (amended): for every setup call with `d = |target - start| > 0`,
positions in `int32` range, `0 < a`, `MIN_SPEED ≤ v_max < 2^16`, the computed
segment lengths and peak speed are exactly `profile_synthesis_amended`:
`d_acc = (v_max² - v_min²)/(2a)`; if `d > 2·d_acc` a trapezoid with
`accel = decel = d_acc`, `constant = d - 2·d_acc`, peak `v_max`; otherwise a
triangle with `accel = d/2`, `decel = d - d/2`, `constant = 0`, and peak the
capped-Newton root of `v_min² + 2·a·accel`, truncated to 16 bits, capped at
`v_max`. -/
theorem motion_profile_setup_matches_amended (min_speed max_speed acceleration : Nat)
    (p : motion_profile_t) (current_pos target_pos : Int)
    (hd : current_pos ≠ target_pos)
    (hrange : (target_pos - current_pos).natAbs < 2 ^ 31)
    (ha : 0 < acceleration)
    (hmm : min_speed ≤ max_speed)
    (hmax : max_speed < U16) :
    ((motion_profile_setup min_speed p current_pos target_pos max_speed acceleration).accel_steps,
     (motion_profile_setup min_speed p current_pos target_pos max_speed acceleration).constant_steps,
     (motion_profile_setup min_speed p current_pos target_pos max_speed acceleration).decel_steps,
     (motion_profile_setup min_speed p current_pos target_pos max_speed acceleration).target_speed) =
      profile_synthesis_amended min_speed (target_pos - current_pos).natAbs
        max_speed acceleration := by
  have hd0 : ¬ (target_pos - current_pos).natAbs = 0 := by
    intro h
    exact hd (by omega)
  have hsq_le : min_speed * min_speed ≤ max_speed * max_speed :=
    Nat.mul_le_mul hmm hmm
  have hsq_lt : max_speed * max_speed < U32 := by
    have h2 : max_speed * max_speed < U16 * U16 :=
      Nat.mul_lt_mul_of_lt_of_le hmax (Nat.le_of_lt hmax) (by unfold U16; omega)
    unfold U16 at h2
    unfold U32
    omega
  simp only [motion_profile_setup, profile_synthesis_amended, if_neg hd0]
  rw [u32_sub_eq_sub _ _ hsq_le hsq_lt]
  set d := (target_pos - current_pos).natAbs with hdset
  set d_acc := (max_speed * max_speed - min_speed * min_speed) / (2 * acceleration)
    with hdacc
  by_cases hbr : d ≤ 2 * d_acc
  · have hbr2 : ¬ d > 2 * d_acc := by omega
    rw [if_pos hbr, if_neg hbr2]
    have hmr : min_speed * min_speed + 2 * acceleration * (d / 2) < U32 := by
      have h1 : d / 2 ≤ d_acc := by omega
      have h2 : 2 * acceleration * (d / 2) ≤ 2 * acceleration * d_acc :=
        Nat.mul_le_mul_left _ h1
      have h3 : 2 * acceleration * d_acc ≤
          max_speed * max_speed - min_speed * min_speed := by
        rw [hdacc]
        exact Nat.mul_div_le _ _
      omega
    rw [Nat.mod_eq_of_lt hmr]
    simp only [Prod.mk.injEq]
    refine ⟨by trivial, by trivial, by trivial, ?_⟩
    generalize sqrt_precise (min_speed * min_speed + 2 * acceleration * (d / 2)) % U16 = s
    rw [Nat.min_def]
    split_ifs <;> omega
  · rw [if_neg hbr, if_pos (by omega)]
    simp only [Prod.mk.injEq, true_and, and_true]
    omega

/-- Closed instance of `motion_profile_setup_matches_amended` at
`start = 0`, `target = 600`, `v_max = 1000`, `a = 1000`, `MIN_SPEED = 500`
(a triangular profile). -/
theorem motion_profile_setup_matches_amended_witness :
    ((motion_profile_setup 500 profile0 0 600 1000 1000).accel_steps,
     (motion_profile_setup 500 profile0 0 600 1000 1000).constant_steps,
     (motion_profile_setup 500 profile0 0 600 1000 1000).decel_steps,
     (motion_profile_setup 500 profile0 0 600 1000 1000).target_speed) =
      profile_synthesis_amended 500 600 1000 1000 :=
  motion_profile_setup_matches_amended 500 1000 1000 profile0 0 600
    (by decide) (by decide) (by decide) (by decide) (by decide)

/-- C3: for every setup call with `total_steps > 0` (and a non-zero
acceleration — a zero one divides by zero in C), the three segment lengths
partition the move: `accel_steps + constant_steps + decel_steps = total_steps`,
in both the trapezoidal and the triangular branch. -/
theorem motion_profile_setup_total_split (min_speed max_speed acceleration : Nat)
    (p : motion_profile_t) (current_pos target_pos : Int)
    (hd : current_pos ≠ target_pos)
    (ha : 0 < acceleration) :
    (motion_profile_setup min_speed p current_pos target_pos max_speed acceleration).accel_steps +
      (motion_profile_setup min_speed p current_pos target_pos max_speed acceleration).constant_steps +
      (motion_profile_setup min_speed p current_pos target_pos max_speed acceleration).decel_steps =
      (motion_profile_setup min_speed p current_pos target_pos max_speed
        acceleration).total_steps := by
  have hd0 : ¬ (target_pos - current_pos).natAbs = 0 := by
    intro h
    exact hd (by omega)
  simp only [motion_profile_setup, if_neg hd0]
  set d := (target_pos - current_pos).natAbs with hdset
  set d_acc := u32_sub (max_speed * max_speed) (min_speed * min_speed) /
      (2 * acceleration) with hdacc
  by_cases hbr : d ≤ 2 * d_acc
  · rw [if_pos hbr]
    simp only
    omega
  · rw [if_neg hbr]
    simp only
    omega

/-- Closed instance of `motion_profile_setup_total_split` at
`start = 0`, `target = 1000`, `v_max = 1000`, `a = 1000`. -/
theorem motion_profile_setup_total_split_witness :
    (motion_profile_setup 500 profile0 0 1000 1000 1000).accel_steps +
      (motion_profile_setup 500 profile0 0 1000 1000 1000).constant_steps +
      (motion_profile_setup 500 profile0 0 1000 1000 1000).decel_steps =
      (motion_profile_setup 500 profile0 0 1000 1000 1000).total_steps :=
  motion_profile_setup_total_split 500 1000 1000 profile0 0 1000
    (by decide) (by decide)

lemma sqrt_le_sqrt_newton_next (v x : Nat) (hx : 1 ≤ x) :
    Nat.sqrt v ≤ sqrt_newton_next v x := by
  unfold sqrt_newton_next
  set s := Nat.sqrt v with hs
  set q := v / x with hq
  have hsv : s * s ≤ v := Nat.sqrt_le v
  have hdm := Nat.div_add_mod v x
  have hml := Nat.mod_lt v (show 0 < x by omega)
  have hqx : x * q ≤ v := by rw [hq]; omega
  have hvq : v < x * q + x := by rw [hq]; omega
  have key : 2 * s ≤ x + q := by
    by_contra hcon
    push_neg at hcon
    have hxs : (x:ℤ) * q ≤ v := by exact_mod_cast hqx
    have hsq : (s:ℤ) * s ≤ v := by exact_mod_cast hsv
    have hvq' : (v:ℤ) < x * q + x := by exact_mod_cast hvq
    have hcon' : (x:ℤ) + q + 1 ≤ 2 * s := by exact_mod_cast hcon
    nlinarith [sq_nonneg ((x:ℤ) - s), sq_nonneg ((q:ℤ) - s), sq_nonneg ((x:ℤ) + q - 2 * s)]
  omega

lemma newton_fixed_le_sqrt (v x : Nat) (hx : 1 ≤ x)
    (h : x ≤ sqrt_newton_next v x) : x ≤ Nat.sqrt v := by
  unfold sqrt_newton_next at h
  have h2 : x * 2 ≤ x + v / x := by omega
  have h3 : x ≤ v / x := by omega
  have h4 : x * x ≤ v := (Nat.le_div_iff_mul_le (by omega)).mp h3
  exact Nat.le_sqrt.mpr (by nlinarith)

lemma sqrt_precise_loop_ge (v : Nat) (hv : 1 ≤ v) :
    ∀ fuel x, Nat.sqrt v ≤ x →
      Nat.sqrt v ≤ sqrt_precise_loop v fuel x (sqrt_newton_next v x) := by
  intro fuel
  induction fuel with
  | zero => intro x hx; simpa [sqrt_precise_loop] using hx
  | succ n ih =>
    intro x hx
    unfold sqrt_precise_loop
    by_cases hlt : sqrt_newton_next v x < x
    · rw [if_pos hlt]
      have hs1 : 1 ≤ Nat.sqrt v := by
        have := Nat.sqrt_pos.mpr (show 0 < v by omega)
        omega
      exact ih (sqrt_newton_next v x) (sqrt_le_sqrt_newton_next v x (by omega))
    · rw [if_neg hlt]
      exact hx

/-- C10 (amended): `sqrt_precise` never returns less than `⌊√v⌋`, and the
result is exactly `⌊√v⌋` whenever the returned value is a fixed point of the
Newton step — i.e. whenever the iteration converged within the 10-iteration
cap.  (The cap makes the result overshoot for large inputs; see the
counterexample.) -/
theorem sqrt_precise_ge_and_exact (v : Nat) :
    Nat.sqrt v ≤ sqrt_precise v ∧
    (sqrt_precise v ≤ sqrt_newton_next v (sqrt_precise v) →
      sqrt_precise v = Nat.sqrt v) := by
  by_cases h0 : v = 0
  · subst h0
    refine ⟨by simp [sqrt_precise], fun _ => by simp [sqrt_precise]⟩
  by_cases h1 : v = 1
  · subst h1
    refine ⟨by simp [sqrt_precise, Nat.sqrt], fun _ => ?_⟩
    have hs : Nat.sqrt 1 = 1 := by
      have h2 : 1 ≤ Nat.sqrt 1 := Nat.le_sqrt.mpr (by norm_num)
      have h3 : Nat.sqrt 1 < 2 := Nat.sqrt_lt.mpr (by norm_num)
      omega
    simp [sqrt_precise, hs]
  have hv2 : 2 ≤ v := by omega
  have hshape : sqrt_precise v = sqrt_precise_loop v 10 v (sqrt_newton_next v v) := by
    unfold sqrt_precise
    rw [if_neg h0, if_neg h1]
    congr 1
    unfold sqrt_newton_next
    rw [Nat.div_self (by omega)]
  have hge : Nat.sqrt v ≤ sqrt_precise v := by
    rw [hshape]
    exact sqrt_precise_loop_ge v (by omega) 10 v (Nat.sqrt_le_self v)
  refine ⟨hge, fun hfix => ?_⟩
  have hs1 : 1 ≤ Nat.sqrt v := Nat.le_sqrt.mpr (by omega)
  exact Nat.le_antisymm
    (newton_fixed_le_sqrt v (sqrt_precise v) (by omega) hfix) hge

/-- Closed instance of `sqrt_precise_ge_and_exact`: at `v = 100` the Newton
iteration converges within the cap and the result is exactly `⌊√100⌋`. -/
theorem sqrt_precise_ge_and_exact_witness : sqrt_precise 100 = Nat.sqrt 100 :=
  (sqrt_precise_ge_and_exact 100).2 (by decide)

/-- C10 (claim as stated is false): for the 32-bit input `v = 2^32 - 2`
(`4294967294`), whose integer square root is `65535`, the 10-iteration cap
stops the Newton iteration long before convergence and `sqrt_precise`
returns `4194644`. -/
theorem sqrt_precise_claim_counterexample :
    sqrt_precise 4294967294 ≠ Nat.sqrt 4294967294 := by
  have h1 : sqrt_precise 4294967294 = 4194644 := by rfl
  have h2 : Nat.sqrt 4294967294 = 65535 := by
    have hle : 65535 ≤ Nat.sqrt 4294967294 := Nat.le_sqrt.mpr (by norm_num)
    have hlt : Nat.sqrt 4294967294 < 65536 := Nat.sqrt_lt.mpr (by norm_num)
    omega
  omega

/-- One full step of the pulse ISR (`ISR(TIMER1_COMPA_vect)` /
`ISR(TIMER3_COMPA_vect)` in the unnamed `stepper_driver.c` variant, falling
edge): the position advances by `+1` when `direction` is true, `-1`
otherwise. -/
def isr_full_step (direction : Bool) (pos : Int) : Int :=
  if direction then pos + 1 else pos - 1

/-- The pulse train of one armed axis, as generated by the repeated firing of
the pulse ISR: each full step moves the position one step in the latched
direction and then performs the ISR's arrival test
`abs32(current_position - target_position) <= 1`; on success the ISR stops
its timer, sets the axis `STEPPER_IDLE`, resets the profile and raises the
per-axis completed flag — modelled by returning `some position`, the position
held at that instant.  `none` means the fuel ran out before the arrival test
fired.  Limit-switch aborts are outside this model (the claim under
verification excludes them). -/
def pulse_run (direction : Bool) (target : Int) : Nat → Int → Option Int
  | 0, _ => none
  | fuel + 1, pos =>
    let p2 := isr_full_step direction pos
    if (p2 - target).natAbs ≤ 1 then some p2
    else pulse_run direction target fuel p2

lemma pulse_run_up (target : Int) :
    ∀ d : Nat, 1 ≤ d →
      pulse_run true target d (target - d) =
        some (if d = 1 then target else target - 1) := by
  intro d
  induction d with
  | zero => omega
  | succ n ih =>
    intro _
    simp only [pulse_run, isr_full_step, if_true]
    have hstep : target - ((n + 1 : Nat) : Int) + 1 = target - (n : Nat) := by
      push_cast
      ring
    have habs : (target - ((n : Nat) : Int) - target).natAbs = n := by
      have h2 : target - ((n : Nat) : Int) - target = -((n : Nat) : Int) := by ring
      rw [h2, Int.natAbs_neg, Int.natAbs_ofNat]
    rw [hstep]
    by_cases hn : n ≤ 1
    · rw [if_pos (by rw [habs]; omega)]
      rcases Nat.le_one_iff_eq_zero_or_eq_one.mp hn with h0 | h1
      · subst h0
        norm_num
      · subst h1
        norm_num
    · rw [if_neg (by rw [habs]; omega)]
      rw [ih (by omega), if_neg (by omega)]
      rw [if_neg (by omega)]

lemma pulse_run_down (target : Int) :
    ∀ d : Nat, 1 ≤ d →
      pulse_run false target d (target + d) =
        some (if d = 1 then target else target + 1) := by
  intro d
  induction d with
  | zero => omega
  | succ n ih =>
    intro _
    simp only [pulse_run, isr_full_step, Bool.false_eq_true, if_false]
    have hstep : target + ((n + 1 : Nat) : Int) - 1 = target + (n : Nat) := by
      push_cast
      ring
    have habs : (target + ((n : Nat) : Int) - target).natAbs = n := by
      have h2 : target + ((n : Nat) : Int) - target = ((n : Nat) : Int) := by ring
      rw [h2, Int.natAbs_ofNat]
    rw [hstep]
    by_cases hn : n ≤ 1
    · rw [if_pos (by rw [habs]; omega)]
      rcases Nat.le_one_iff_eq_zero_or_eq_one.mp hn with h0 | h1
      · subst h0
        norm_num
      · subst h1
        norm_num
    · rw [if_neg (by rw [habs]; omega)]
      rw [ih (by omega), if_neg (by omega)]
      rw [if_neg (by omega)]

/-- C2 (amended): for every non-aborted move (distance `d = |target - start|
≥ 1`, direction latched toward the target as `stepper_move_absolute` does),
at the instant the pulse ISR's arrival test fires — stopping the timer,
setting the axis IDLE, resetting the profile and raising the per-axis
completed flag — the position satisfies `|current - target| ≤ 1`, and it
equals the target exactly iff the move's total distance was 1; for `d ≥ 2`
the `<= 1` arrival test stops the axis one step short of the target. -/
theorem pulse_isr_completion_within_one (start target : Int) (h : start ≠ target) :
    ∃ f, pulse_run (decide (start < target)) target (target - start).natAbs start =
        some f ∧
      (f - target).natAbs ≤ 1 ∧ (f = target ↔ (target - start).natAbs = 1) := by
  rcases lt_or_gt_of_ne h with hlt | hgt
  · have hdec : decide (start < target) = true := decide_eq_true hlt
    set d := (target - start).natAbs with hd
    have hd1 : 1 ≤ d := by omega
    have hstart : start = target - (d : Int) := by omega
    rw [hdec, hstart, pulse_run_up target _ hd1]
    by_cases hone : d = 1
    · rw [if_pos hone]
      exact ⟨target, rfl, by simp, by simp [hone]⟩
    · rw [if_neg hone]
      refine ⟨target - 1, rfl, by simp, ?_⟩
      constructor
      · intro hf
        omega
      · intro hf
        exact absurd hf hone
  · have hdec : decide (start < target) = false := decide_eq_false (by omega)
    set d := (target - start).natAbs with hd
    have hd1 : 1 ≤ d := by omega
    have hstart : start = target + (d : Int) := by omega
    rw [hdec, hstart, pulse_run_down target _ hd1]
    by_cases hone : d = 1
    · rw [if_pos hone]
      exact ⟨target, rfl, by simp, by simp [hone]⟩
    · rw [if_neg hone]
      refine ⟨target + 1, rfl, by simp, ?_⟩
      constructor
      · intro hf
        omega
      · intro hf
        exact absurd hf hone

/-- Closed instance of `pulse_isr_completion_within_one` for the move
`start = 0`, `target = 2`. -/
theorem pulse_isr_completion_within_one_witness :
    ∃ f, pulse_run (decide ((0 : Int) < 2)) 2 ((2 : Int) - 0).natAbs 0 = some f ∧
      (f - 2).natAbs ≤ 1 ∧ (f = 2 ↔ ((2 : Int) - 0).natAbs = 1) :=
  pulse_isr_completion_within_one 0 2 (by decide)

/-- C2 (claim as stated is false): for the two-step move `start = 0`,
`target = 2`, the ISR's `<= 1` arrival test fires after the first step, at
`current_position = 1 ≠ 2 = target`, so completion is reported without exact
equality. -/
theorem move_completion_exact_counterexample :
    pulse_run (decide ((0 : Int) < 2)) 2 ((2 : Int) - 0).natAbs 0 = some 1 ∧
      (1 : Int) ≠ 2 := by decide

/-- Per-switch debounce state of `limit_switch_update` (unnamed
`limit_switch.c` variant, lines 21-68): the `static uint8_t
debounce_counter[i]` cell and the corresponding `limits.*_triggered` flag. -/
structure switch_state where
  counter : Nat
  triggered : Bool
deriving Repr, DecidableEq

/-- Constant `DEBOUNCE_THRESHOLD = 6` (`const uint8_t`) from `limit_switch_update`. -/
def DEBOUNCE_THRESHOLD : Nat := 6

/-- Boot state: counters zeroed, no switch triggered. -/
def switch_state0 : switch_state := ⟨0, false⟩

/-- One `limit_switch_update` tick for one switch (the emission side effects
are modelled separately in `limit_switch_update_hl`): a pressed sample
increments the counter while it is below the threshold and flips `triggered`
exactly upon reaching it; a released sample resets the counter and clears
`triggered`. -/
def limit_switch_step (s : switch_state) (pressed : Bool) : switch_state :=
  if pressed then
    if s.counter < DEBOUNCE_THRESHOLD then
      if s.counter + 1 = DEBOUNCE_THRESHOLD then ⟨s.counter + 1, true⟩
      else ⟨s.counter + 1, s.triggered⟩
    else s
  else ⟨0, false⟩

/-- The debounce state after a sample sequence, starting from boot. -/
def limit_switch_run (samples : List Bool) : switch_state :=
  samples.foldl limit_switch_step switch_state0

lemma limit_switch_step_invariant (s : switch_state) (b : Bool)
    (h1 : s.counter ≤ DEBOUNCE_THRESHOLD)
    (h2 : s.triggered ↔ s.counter = DEBOUNCE_THRESHOLD) :
    (limit_switch_step s b).counter ≤ DEBOUNCE_THRESHOLD ∧
      ((limit_switch_step s b).triggered ↔
        (limit_switch_step s b).counter = DEBOUNCE_THRESHOLD) := by
  obtain ⟨c, t⟩ := s
  simp only at h1 h2
  unfold DEBOUNCE_THRESHOLD at h1 h2 ⊢
  unfold limit_switch_step DEBOUNCE_THRESHOLD
  cases b with
  | false => simp
  | true =>
    by_cases hc : c < 6
    · rw [if_pos rfl, if_pos hc]
      by_cases h6 : c + 1 = 6
      · rw [if_pos h6]
        simp [h6]
      · rw [if_neg h6]
        simp only
        constructor
        · omega
        · rw [h2]
          omega
    · rw [if_pos rfl, if_neg hc]
      exact ⟨h1, h2⟩

lemma limit_switch_run_invariant (samples : List Bool) :
    (limit_switch_run samples).counter ≤ DEBOUNCE_THRESHOLD ∧
      ((limit_switch_run samples).triggered ↔
        (limit_switch_run samples).counter = DEBOUNCE_THRESHOLD) := by
  unfold limit_switch_run
  generalize hs0 : switch_state0 = s0
  have hinv0 : s0.counter ≤ DEBOUNCE_THRESHOLD ∧
      (s0.triggered ↔ s0.counter = DEBOUNCE_THRESHOLD) := by
    rw [← hs0]
    exact ⟨by decide, by decide⟩
  clear hs0
  induction samples generalizing s0 with
  | nil => simpa using hinv0
  | cons b rest ih =>
    simp only [List.foldl_cons]
    exact ih _ (limit_switch_step_invariant s0 b hinv0.1 hinv0.2)

lemma limit_switch_step_props (c : Nat) (t : Bool) (h1 : c ≤ DEBOUNCE_THRESHOLD) :
    limit_switch_step ⟨c, t⟩ false = switch_state0 ∧
      (limit_switch_step ⟨c, t⟩ true).counter = min (c + 1) DEBOUNCE_THRESHOLD ∧
      (¬ t = true → ((limit_switch_step ⟨c, t⟩ true).triggered ↔
        c + 1 = DEBOUNCE_THRESHOLD)) := by
  unfold DEBOUNCE_THRESHOLD at h1
  interval_cases c <;> cases t <;> decide

lemma limit_switch_six_pressed (c : Nat) (t : Bool) (h1 : c ≤ DEBOUNCE_THRESHOLD)
    (h2 : t = true ↔ c = DEBOUNCE_THRESHOLD) :
    ((List.replicate DEBOUNCE_THRESHOLD true).foldl limit_switch_step
      ⟨c, t⟩).triggered = true := by
  unfold DEBOUNCE_THRESHOLD at h1 h2 ⊢
  interval_cases c <;> cases t <;> first | decide | simp_all

/-- C9: for every sample sequence, the debounced state satisfies the claim:
(i) `triggered` holds exactly when the counter sits at the threshold (so the
state flips to triggered only upon reaching it via pressed samples);
(ii) a single released sample resets the counter to zero and clears
`triggered`; (iii) a pressed sample advances the counter by one, saturating
at the threshold; (iv) from an untriggered state, a further pressed sample
triggers exactly when it makes the counter reach the threshold; (v) six
consecutive pressed samples always leave the switch triggered. -/
theorem limit_switch_debounce_claim (samples : List Bool) :
    ((limit_switch_run samples).triggered ↔
      (limit_switch_run samples).counter = DEBOUNCE_THRESHOLD) ∧
    limit_switch_step (limit_switch_run samples) false = switch_state0 ∧
    (limit_switch_step (limit_switch_run samples) true).counter =
      min ((limit_switch_run samples).counter + 1) DEBOUNCE_THRESHOLD ∧
    (¬ (limit_switch_run samples).triggered →
      ((limit_switch_step (limit_switch_run samples) true).triggered ↔
        (limit_switch_run samples).counter + 1 = DEBOUNCE_THRESHOLD)) ∧
    ((List.replicate DEBOUNCE_THRESHOLD true).foldl limit_switch_step
      (limit_switch_run samples)).triggered = true := by
  obtain ⟨h1, h2⟩ := limit_switch_run_invariant samples
  set s := limit_switch_run samples with hs
  clear_value s
  obtain ⟨c, t⟩ := s
  simp only at h1 h2 ⊢
  obtain ⟨p1, p2, p3⟩ := limit_switch_step_props c t h1
  exact ⟨h2, p1, p2, p3, limit_switch_six_pressed c t h1 h2⟩

/-- Closed instance of `limit_switch_debounce_claim` at the empty sample
sequence: a released sample from boot state leaves the reset state. -/
theorem limit_switch_debounce_claim_witness :
    limit_switch_step (limit_switch_run []) false = switch_state0 :=
  (limit_switch_debounce_claim []).2.1

/-- The framed messages sent by `uart_send_response` inside the
threshold-crossing branch of `limit_switch_update` (unnamed `limit_switch.c`
variant, lines 30-68), in program order. -/
inductive uart_msg where
  | POSITION_AT_LIMIT
  | LIMIT_TRIGGERED
  | CALIBRATION_COMPLETED
  | MOVEMENT_SNAPSHOTS
deriving Repr, DecidableEq

/-- One `limit_switch_update` tick for the H-left switch, with its emission
trace (the other three switch blocks are syntactically identical up to the
pin, message text and direction tested).  On the sample that makes the
counter reach the threshold the code sends, in order: the
`POSITION_AT_LIMIT:H=…,V=…` snapshot, then `LIMIT_H_LEFT_TRIGGERED`, then
`CALIBRATION_COMPLETED` (via the unconditional `stepper_stop_calibration()`
call), and — only when the axis is moving into the limit and snapshots are
pending — `MOVEMENT_SNAPSHOTS:…`, before stopping the axis.  All other
samples emit nothing. -/
def limit_switch_update_hl (s : switch_state) (pressed moving_into_limit : Bool)
    (snapshot_count : Nat) : switch_state × List uart_msg :=
  if pressed then
    if s.counter < DEBOUNCE_THRESHOLD then
      if s.counter + 1 = DEBOUNCE_THRESHOLD then
        (⟨s.counter + 1, true⟩,
          [uart_msg.POSITION_AT_LIMIT, uart_msg.LIMIT_TRIGGERED,
            uart_msg.CALIBRATION_COMPLETED] ++
            (if moving_into_limit ∧ snapshot_count > 0 then
              [uart_msg.MOVEMENT_SNAPSHOTS] else []))
      else (⟨s.counter + 1, s.triggered⟩, [])
    else (s, [])
  else (⟨0, false⟩, [])

/-- Message `a` is emitted strictly before message `b` in the trace `l`. -/
def emitted_before (a b : uart_msg) (l : List uart_msg) : Prop :=
  l.indexOf a < l.indexOf b

instance (a b : uart_msg) (l : List uart_msg) : Decidable (emitted_before a b l) := by
  unfold emitted_before
  infer_instance

/-- C6 (claim as stated is false): on the threshold-crossing sample (counter
5 → 6), the `LIMIT_*_TRIGGERED` event is NOT emitted before the
`POSITION_AT_LIMIT` snapshot — the firmware sends the position snapshot
first. -/
theorem limit_event_order_counterexample :
    ¬ emitted_before uart_msg.LIMIT_TRIGGERED uart_msg.POSITION_AT_LIMIT
      (limit_switch_update_hl ⟨5, false⟩ true true 0).2 := by decide

/-- C6 (amended): whenever a limit switch transitions to triggered (counter
reaching the threshold on a pressed sample), the emitted trace is exactly
`POSITION_AT_LIMIT`, then `LIMIT_*_TRIGGERED`, then the stopped-axis
reports (`CALIBRATION_COMPLETED`, and `MOVEMENT_SNAPSHOTS` when applicable):
the trigger event follows the position snapshot and precedes every
stopped-axis report. -/
theorem limit_event_order (s : switch_state) (moving_into_limit : Bool)
    (snapshot_count : Nat) (h5 : s.counter + 1 = DEBOUNCE_THRESHOLD) :
    (limit_switch_update_hl s true moving_into_limit snapshot_count).2 =
      [uart_msg.POSITION_AT_LIMIT, uart_msg.LIMIT_TRIGGERED,
        uart_msg.CALIBRATION_COMPLETED] ++
        (if moving_into_limit ∧ snapshot_count > 0 then
          [uart_msg.MOVEMENT_SNAPSHOTS] else []) ∧
    emitted_before uart_msg.POSITION_AT_LIMIT uart_msg.LIMIT_TRIGGERED
      (limit_switch_update_hl s true moving_into_limit snapshot_count).2 ∧
    emitted_before uart_msg.LIMIT_TRIGGERED uart_msg.CALIBRATION_COMPLETED
      (limit_switch_update_hl s true moving_into_limit snapshot_count).2 := by
  have htrace : (limit_switch_update_hl s true moving_into_limit snapshot_count).2 =
      [uart_msg.POSITION_AT_LIMIT, uart_msg.LIMIT_TRIGGERED,
        uart_msg.CALIBRATION_COMPLETED] ++
        (if moving_into_limit ∧ snapshot_count > 0 then
          [uart_msg.MOVEMENT_SNAPSHOTS] else []) := by
    unfold limit_switch_update_hl
    rw [if_pos rfl, if_pos (by omega), if_pos h5]
  refine ⟨htrace, ?_, ?_⟩ <;> rw [htrace] <;>
      by_cases hsnap : moving_into_limit = true ∧ snapshot_count > 0
  · rw [if_pos hsnap]
    decide
  · rw [if_neg hsnap]
    decide
  · rw [if_pos hsnap]
    decide
  · rw [if_neg hsnap]
    decide

/-- Closed instance of `limit_event_order` at the transition from counter 5
with a pending snapshot. -/
theorem limit_event_order_witness :
    (limit_switch_update_hl ⟨5, false⟩ true true 1).2 =
      [uart_msg.POSITION_AT_LIMIT, uart_msg.LIMIT_TRIGGERED,
        uart_msg.CALIBRATION_COMPLETED] ++
        (if (true : Bool) ∧ (1 : Nat) > 0 then
          [uart_msg.MOVEMENT_SNAPSHOTS] else []) ∧
    emitted_before uart_msg.POSITION_AT_LIMIT uart_msg.LIMIT_TRIGGERED
      (limit_switch_update_hl ⟨5, false⟩ true true 1).2 ∧
    emitted_before uart_msg.LIMIT_TRIGGERED uart_msg.CALIBRATION_COMPLETED
      (limit_switch_update_hl ⟨5, false⟩ true true 1).2 :=
  limit_event_order ⟨5, false⟩ true 1 (by decide)

/-- Constant `UART_BUFFER_SIZE` from `config/command_protocol.h`. -/
def UART_BUFFER_SIZE : Nat := 128

/-- RX-ISR parser state of `drivers/uart_driver.c`: the `cmd_started` flag,
the write index `cmd_index`, and the command bytes stored since the last `<`
(`command_buffer[0..cmd_index)`). -/
structure uart_rx_state where
  cmd_started : Bool
  cmd_index : Nat
  buffer : List Char
deriving Repr, DecidableEq

/-- Parser state after `uart_init`. -/
def uart_rx_state0 : uart_rx_state := ⟨false, 0, []⟩

/-- The `if / else if` chain of `ISR(USART0_RX_vect)`
(`drivers/uart_driver.c`, lines 73-95): `<` opens a frame and resets the
write index; `>` inside a frame terminates it and dispatches the stored
payload (the callback runs on `command_buffer[0..cmd_index)`); any other
byte inside a frame is stored unless it is CR or LF or the buffer is full;
bytes outside a frame are discarded. -/
def usart0_rx_phase1 (s : uart_rx_state) (received : Char) :
    uart_rx_state × Option (List Char) :=
  if received = '<' then
    ({ cmd_started := true, cmd_index := 0, buffer := [] }, none)
  else if received = '>' ∧ s.cmd_started then
    ({ s with cmd_started := false }, some s.buffer)
  else if s.cmd_started ∧ s.cmd_index < UART_BUFFER_SIZE - 1 then
    if received ≠ '\n' ∧ received ≠ '\r' then
      ({ s with cmd_index := s.cmd_index + 1, buffer := s.buffer ++ [received] },
        none)
    else (s, none)
  else (s, none)

/-- One byte through `ISR(USART0_RX_vect)` including the trailing overflow
reset (`drivers/uart_driver.c`, lines 97-101): if the write index has
reached `UART_BUFFER_SIZE - 1` the in-progress frame is silently dropped. -/
def usart0_rx_isr (s : uart_rx_state) (received : Char) :
    uart_rx_state × Option (List Char) :=
  let r := usart0_rx_phase1 s received
  if UART_BUFFER_SIZE - 1 ≤ r.1.cmd_index then
    ({ r.1 with cmd_started := false, cmd_index := 0 }, r.2)
  else r

/-- A byte stream through the RX ISR: final parser state and the list of
dispatched command payloads, in order. -/
def uart_rx_run (s : uart_rx_state) (input : List Char) :
    uart_rx_state × List (List Char) :=
  input.foldl
    (fun acc c =>
      let r := usart0_rx_isr acc.1 c
      (r.1, acc.2 ++ r.2.toList))
    (s, [])

/-- C7 (claim as stated is false): the RX ISR has no timeout — after the
bytes `abc<M:10` (no terminator), a later `>` completes the pending frame
and the enclosed `M:10` IS dispatched as a command. -/
theorem uart_frame_timeout_counterexample :
    (uart_rx_run uart_rx_state0 ("abc<M:10>").toList).2 = [("M:10").toList] := by
  decide

/-- C7 (amended): for every parser state with a legal write index and every
received byte: (i) bytes outside a frame other than `<` are discarded;
(ii) `<` always (re)opens a frame with the parse buffer reset; (iii) CR and
LF inside a frame are never stored; (iv) the byte that fills the 128-byte
buffer silently drops the in-progress frame (no dispatch, frame closed), and
by (ii) the parser resynchronizes at the next `<`; (v) a command is
dispatched only when `>` arrives with a frame open, and the payload is
exactly the bytes stored since the last `<` — there is no timeout, so a late
`>` still completes a pending frame. -/
lemma usart0_rx_phase1_discard (s : uart_rx_state) (c : Char)
    (hst : ¬ s.cmd_started = true) (hc : c ≠ '<') :
    usart0_rx_phase1 s c = (s, none) := by
  unfold usart0_rx_phase1
  rw [if_neg hc,
    if_neg (show ¬(c = '>' ∧ s.cmd_started = true) from fun h => hst h.2),
    if_neg (show ¬(s.cmd_started = true ∧ s.cmd_index < UART_BUFFER_SIZE - 1) from
      fun h => hst h.1)]

lemma usart0_rx_phase1_open (s : uart_rx_state) :
    usart0_rx_phase1 s '<' = (⟨true, 0, []⟩, none) := by
  unfold usart0_rx_phase1
  rw [if_pos rfl]

lemma usart0_rx_phase1_crlf (s : uart_rx_state) (c : Char)
    (hst : s.cmd_started = true) (hcrlf : c = '\r' ∨ c = '\n')
    (hidx : s.cmd_index < UART_BUFFER_SIZE - 1) :
    usart0_rx_phase1 s c = (s, none) := by
  have hc1 : c ≠ '<' := by rcases hcrlf with h | h <;> subst h <;> decide
  have hc2 : c ≠ '>' := by rcases hcrlf with h | h <;> subst h <;> decide
  unfold usart0_rx_phase1
  rw [if_neg hc1,
    if_neg (show ¬(c = '>' ∧ s.cmd_started = true) from fun h => hc2 h.1),
    if_pos ⟨hst, hidx⟩,
    if_neg (show ¬(c ≠ '\n' ∧ c ≠ '\r') from
      fun h => hcrlf.elim (fun h2 => h.2 h2) (fun h2 => h.1 h2))]

lemma usart0_rx_phase1_store (s : uart_rx_state) (c : Char)
    (hst : s.cmd_started = true) (hc1 : c ≠ '<') (hc2 : c ≠ '>')
    (hc3 : c ≠ '\r') (hc4 : c ≠ '\n')
    (hidx : s.cmd_index < UART_BUFFER_SIZE - 1) :
    usart0_rx_phase1 s c =
      ({ s with cmd_index := s.cmd_index + 1, buffer := s.buffer ++ [c] }, none) := by
  unfold usart0_rx_phase1
  rw [if_neg hc1,
    if_neg (show ¬(c = '>' ∧ s.cmd_started = true) from fun h => hc2 h.1),
    if_pos ⟨hst, hidx⟩, if_pos ⟨hc4, hc3⟩]

/-- C7 (amended): for every parser state with a legal write index and every
received byte: (i) bytes outside a frame other than `<` are discarded;
(ii) `<` always (re)opens a frame with the parse buffer reset; (iii) CR and
LF inside a frame are never stored; (iv) the byte that fills the 128-byte
buffer silently drops the in-progress frame (no dispatch, frame closed), and
by (ii) the parser resynchronizes at the next `<`; (v) a command is
dispatched only when `>` arrives with a frame open, and the payload is
exactly the bytes stored since the last `<` — there is no timeout, so a late
`>` still completes a pending frame. -/
theorem uart_rx_framing (s : uart_rx_state) (c : Char)
    (hwf : s.cmd_index ≤ UART_BUFFER_SIZE - 2) :
    (¬ s.cmd_started = true → c ≠ '<' → usart0_rx_isr s c = (s, none)) ∧
    (usart0_rx_isr s '<' = (⟨true, 0, []⟩, none)) ∧
    (s.cmd_started = true → c = '\r' ∨ c = '\n' → usart0_rx_isr s c = (s, none)) ∧
    (s.cmd_started = true → s.cmd_index = UART_BUFFER_SIZE - 2 → c ≠ '<' →
      c ≠ '>' → c ≠ '\r' → c ≠ '\n' →
      (usart0_rx_isr s c).1.cmd_started = false ∧ (usart0_rx_isr s c).2 = none) ∧
    (∀ f, (usart0_rx_isr s c).2 = some f →
      c = '>' ∧ s.cmd_started = true ∧ f = s.buffer) := by
  unfold UART_BUFFER_SIZE at hwf
  refine ⟨?_, ?_, ?_, ?_, ?_⟩
  · intro hst hc
    unfold usart0_rx_isr
    rw [usart0_rx_phase1_discard s c hst hc]
    dsimp only
    rw [if_neg (by unfold UART_BUFFER_SIZE; omega)]
  · unfold usart0_rx_isr
    rw [usart0_rx_phase1_open s]
    dsimp only
    rw [if_neg (by unfold UART_BUFFER_SIZE; omega)]
  · intro hst hcrlf
    unfold usart0_rx_isr
    rw [usart0_rx_phase1_crlf s c hst hcrlf (by unfold UART_BUFFER_SIZE; omega)]
    dsimp only
    rw [if_neg (by unfold UART_BUFFER_SIZE; omega)]
  · intro hst hidx hc1 hc2 hc3 hc4
    unfold UART_BUFFER_SIZE at hidx
    unfold usart0_rx_isr
    rw [usart0_rx_phase1_store s c hst hc1 hc2 hc3 hc4 (by unfold UART_BUFFER_SIZE; omega)]
    dsimp only
    rw [if_pos (by unfold UART_BUFFER_SIZE; omega)]
    exact ⟨rfl, rfl⟩
  · intro f hf
    unfold usart0_rx_isr usart0_rx_phase1 UART_BUFFER_SIZE at hf
    dsimp only at hf
    split_ifs at hf <;> simp_all

/-- Closed instance of `uart_rx_framing`: from the boot state, a stray `x`
outside any frame is discarded. -/
theorem uart_rx_framing_witness :
    usart0_rx_isr uart_rx_state0 'x' = (uart_rx_state0, none) :=
  (uart_rx_framing uart_rx_state0 'x' (by decide)).1 (by decide) (by decide)

/-- The velocity-coupling block of `stepper_move_absolute` (unnamed
`stepper_driver.c` variant, lines 329-354).  Both speeds start at the axis
ceilings; when both axes have non-zero distance and are enabled, the shorter
axis's speed is scaled by the distance ratio in C `uint32_t` arithmetic
(`(uint32_t)long_max * short_dist / long_dist`, which wraps `% U32`), stored
into a `uint16_t` (`% U16`), floored at the literal 500 (`MIN_SPEED`), and if
the result still exceeds the shorter axis's own ceiling, the longer axis is
slowed by the symmetric quotient instead.  Result:
`(h_speed_adjusted, v_speed_adjusted)`. -/
def stepper_speed_coupling (h_max v_max h_distance v_distance : Nat)
    (h_enabled v_enabled : Bool) : Nat × Nat :=
  if h_distance > 0 ∧ v_distance > 0 ∧ h_enabled ∧ v_enabled then
    if h_distance > v_distance then
      let v1 := h_max * v_distance % U32 / h_distance % U16
      let v2 := if v1 < 500 then 500 else v1
      if v2 > v_max then
        (h_max * v_max % U32 / v2 % U16, v_max)
      else (h_max, v2)
    else if v_distance > h_distance then
      let h1 := v_max * h_distance % U32 / v_distance % U16
      let h2 := if h1 < 500 then 500 else h1
      if h2 > h_max then
        (h_max, v_max * h_max % U32 / h2 % U16)
      else (h2, v_max)
    else (h_max, v_max)
  else (h_max, v_max)

lemma mul_div_le_left (a b c : Nat) (hc : 0 < c) (hbc : b ≤ c) : a * b / c ≤ a := by
  calc a * b / c ≤ a * c / c := Nat.div_le_div_right (Nat.mul_le_mul_left a hbc)
  _ = a := Nat.mul_div_cancel a hc

lemma coupling_h_long (h_max v_max h_d v_d : Nat) (hd : v_d < h_d) (hv : 0 < v_d)
    (hmax1 : h_max < U16) (hmax2 : v_max < U16) (hovf1 : h_max * v_d < U32) :
    stepper_speed_coupling h_max v_max h_d v_d true true =
      (if v_max < max 500 (h_max * v_d / h_d)
       then (h_max * v_max / max 500 (h_max * v_d / h_d), v_max)
       else (h_max, max 500 (h_max * v_d / h_d))) := by
  have hq1 : h_max * v_d / h_d ≤ h_max :=
    mul_div_le_left h_max v_d h_d (by omega) (by omega)
  have hm1 : h_max * v_d % U32 = h_max * v_d := Nat.mod_eq_of_lt hovf1
  have hm2 : h_max * v_d / h_d % U16 = h_max * v_d / h_d := by
    apply Nat.mod_eq_of_lt
    omega
  set q := h_max * v_d / h_d with hq
  have hvmax : max 500 q = if q < 500 then 500 else q := by
    rw [Nat.max_def]
    split_ifs <;> omega
  have hprod : h_max * v_max < U32 := by
    have h2 : h_max * v_max < U16 * U16 :=
      Nat.mul_lt_mul_of_lt_of_le hmax1 (Nat.le_of_lt hmax2) (by unfold U16; omega)
    unfold U16 at h2
    unfold U32
    omega
  have hm3 : h_max * v_max % U32 = h_max * v_max := Nat.mod_eq_of_lt hprod
  unfold stepper_speed_coupling
  rw [if_pos ⟨by omega, by omega, rfl, rfl⟩, if_pos hd]
  simp only [hm1, ← hq, hm2, hm3, ← hvmax]
  by_cases hcap : v_max < max 500 q
  · rw [if_pos hcap, if_pos hcap]
    have hm4 : h_max * v_max / max 500 q % U16 = h_max * v_max / max 500 q := by
      apply Nat.mod_eq_of_lt
      have hb : h_max * v_max / max 500 q ≤ h_max * v_max / (v_max + 1) :=
        Nat.div_le_div_left (by omega) (by omega)
      have hb2 : h_max * v_max / (v_max + 1) ≤ h_max :=
        mul_div_le_left h_max v_max (v_max + 1) (by omega) (by omega)
      omega
    rw [hm4]
  · rw [if_neg hcap, if_neg hcap]

lemma coupling_v_long (h_max v_max h_d v_d : Nat) (hd : h_d < v_d) (hh : 0 < h_d)
    (hmax1 : h_max < U16) (hmax2 : v_max < U16) (hovf2 : v_max * h_d < U32) :
    stepper_speed_coupling h_max v_max h_d v_d true true =
      (if h_max < max 500 (v_max * h_d / v_d)
       then (h_max, v_max * h_max / max 500 (v_max * h_d / v_d))
       else (max 500 (v_max * h_d / v_d), v_max)) := by
  have hq1 : v_max * h_d / v_d ≤ v_max :=
    mul_div_le_left v_max h_d v_d (by omega) (by omega)
  have hm1 : v_max * h_d % U32 = v_max * h_d := Nat.mod_eq_of_lt hovf2
  have hm2 : v_max * h_d / v_d % U16 = v_max * h_d / v_d := by
    apply Nat.mod_eq_of_lt
    omega
  set q := v_max * h_d / v_d with hq
  have hvmax : max 500 q = if q < 500 then 500 else q := by
    rw [Nat.max_def]
    split_ifs <;> omega
  have hprod : v_max * h_max < U32 := by
    have h2 : v_max * h_max < U16 * U16 :=
      Nat.mul_lt_mul_of_lt_of_le hmax2 (Nat.le_of_lt hmax1) (by unfold U16; omega)
    unfold U16 at h2
    unfold U32
    omega
  have hm3 : v_max * h_max % U32 = v_max * h_max := Nat.mod_eq_of_lt hprod
  unfold stepper_speed_coupling
  rw [if_pos ⟨by omega, by omega, rfl, rfl⟩, if_neg (by omega), if_pos hd]
  simp only [hm1, ← hq, hm2, hm3, ← hvmax]
  by_cases hcap : h_max < max 500 q
  · rw [if_pos hcap, if_pos hcap]
    have hm4 : v_max * h_max / max 500 q % U16 = v_max * h_max / max 500 q := by
      apply Nat.mod_eq_of_lt
      have hb : v_max * h_max / max 500 q ≤ v_max * h_max / (h_max + 1) :=
        Nat.div_le_div_left (by omega) (by omega)
      have hb2 : v_max * h_max / (h_max + 1) ≤ v_max :=
        mul_div_le_left v_max h_max (h_max + 1) (by omega) (by omega)
      omega
    rw [hm4]
  · rw [if_neg hcap, if_neg hcap]

lemma mul_div_lt_ceiling (a b v2 : Nat) (h : b < v2) : a * b / v2 ≤ a := by
  calc a * b / v2 ≤ a * b / (b + 1) := Nat.div_le_div_left (by omega) (by omega)
  _ ≤ a := mul_div_le_left a b (b + 1) (by omega) (by omega)

/-- C4 (claim as stated is false): with ceilings `h_max = 8000`,
`v_max = 12000` and distances `dh = 2000000`, `dv = 1000000`, the claim
predicts a V speed of `max(v_min, 8000·1000000/2000000) = 4000`, but the C
`uint32_t` product `8000·1000000` wraps modulo 2^32 and the firmware
commands `3705032704 / 2000000 = 1852`. -/
theorem speed_coupling_claim_counterexample :
    (stepper_speed_coupling 8000 12000 2000000 1000000 true true).2 ≠
      max 500 (8000 * 1000000 / 2000000) := by decide

/-- C4 (amended): for every coordinated move with `dh ≠ dv`, both distances
non-zero, both axes enabled, 16-bit ceilings, and no `uint32` overflow in
the scaling product (`long_ceiling · short_distance < 2^32`): both commanded
speeds respect their axis ceilings, the shorter axis is commanded
`max(v_min, long_ceiling · d_short / d_long)` (integer division,
`v_min = 500`) whenever that does not exceed its own ceiling, and otherwise
the shorter axis gets its ceiling while the longer axis is reduced to the
symmetric quotient `long_ceiling · short_ceiling / scaled`. -/
theorem stepper_speed_coupling_amended (h_max v_max h_d v_d : Nat)
    (hne : h_d ≠ v_d) (hh : 0 < h_d) (hv : 0 < v_d)
    (hmax1 : h_max < U16) (hmax2 : v_max < U16)
    (hovf1 : h_max * v_d < U32) (hovf2 : v_max * h_d < U32) :
    (stepper_speed_coupling h_max v_max h_d v_d true true).1 ≤ h_max ∧
    (stepper_speed_coupling h_max v_max h_d v_d true true).2 ≤ v_max ∧
    (v_d < h_d →
      (max 500 (h_max * v_d / h_d) ≤ v_max →
        stepper_speed_coupling h_max v_max h_d v_d true true =
          (h_max, max 500 (h_max * v_d / h_d))) ∧
      (v_max < max 500 (h_max * v_d / h_d) →
        stepper_speed_coupling h_max v_max h_d v_d true true =
          (h_max * v_max / max 500 (h_max * v_d / h_d), v_max))) ∧
    (h_d < v_d →
      (max 500 (v_max * h_d / v_d) ≤ h_max →
        stepper_speed_coupling h_max v_max h_d v_d true true =
          (max 500 (v_max * h_d / v_d), v_max)) ∧
      (h_max < max 500 (v_max * h_d / v_d) →
        stepper_speed_coupling h_max v_max h_d v_d true true =
          (h_max, v_max * h_max / max 500 (v_max * h_d / v_d)))) := by
  rcases Nat.lt_or_ge v_d h_d with hvd | hge
  · rw [coupling_h_long h_max v_max h_d v_d hvd hv hmax1 hmax2 hovf1]
    by_cases hcap : v_max < max 500 (h_max * v_d / h_d)
    · rw [if_pos hcap]
      refine ⟨mul_div_lt_ceiling h_max v_max _ hcap, le_refl _, fun _ => ?_,
        fun h2 => absurd h2 (by omega)⟩
      exact ⟨fun hle => absurd hle (by omega), fun _ => rfl⟩
    · rw [if_neg hcap]
      refine ⟨le_refl _, by omega, fun _ => ?_, fun h2 => absurd h2 (by omega)⟩
      exact ⟨fun _ => rfl, fun hlt => absurd hlt hcap⟩
  · have hd2 : h_d < v_d := by omega
    rw [coupling_v_long h_max v_max h_d v_d hd2 hh hmax1 hmax2 hovf2]
    by_cases hcap : h_max < max 500 (v_max * h_d / v_d)
    · rw [if_pos hcap]
      refine ⟨le_refl _, mul_div_lt_ceiling v_max h_max _ hcap,
        fun h2 => absurd h2 (by omega), fun _ => ?_⟩
      exact ⟨fun hle => absurd hle (by omega), fun _ => rfl⟩
    · rw [if_neg hcap]
      refine ⟨by omega, le_refl _, fun h2 => absurd h2 (by omega), fun _ => ?_⟩
      exact ⟨fun _ => rfl, fun hlt => absurd hlt hcap⟩

/-- Closed instance of `stepper_speed_coupling_amended` at `h_max = 8000`,
`v_max = 12000`, `dh = 200`, `dv = 100` (no overflow): the V axis is scaled
to `8000·100/200 = 4000` and both ceilings are respected. -/
theorem stepper_speed_coupling_amended_witness :
    (stepper_speed_coupling 8000 12000 200 100 true true).1 ≤ 8000 ∧
    (stepper_speed_coupling 8000 12000 200 100 true true).2 ≤ 12000 ∧
    ((100 : Nat) < 200 →
      (max 500 (8000 * 100 / 200) ≤ 12000 →
        stepper_speed_coupling 8000 12000 200 100 true true =
          (8000, max 500 (8000 * 100 / 200))) ∧
      (12000 < max 500 (8000 * 100 / 200) →
        stepper_speed_coupling 8000 12000 200 100 true true =
          (8000 * 12000 / max 500 (8000 * 100 / 200), 12000))) ∧
    ((200 : Nat) < 100 →
      (max 500 (12000 * 200 / 100) ≤ 8000 →
        stepper_speed_coupling 8000 12000 200 100 true true =
          (max 500 (12000 * 200 / 100), 12000)) ∧
      (8000 < max 500 (12000 * 200 / 100) →
        stepper_speed_coupling 8000 12000 200 100 true true =
          (8000, 12000 * 8000 / max 500 (12000 * 200 / 100)))) :=
  stepper_speed_coupling_amended 8000 12000 200 100 (by decide) (by decide)
    (by decide) (by decide) (by decide) (by decide) (by decide)

/-- Replies relevant to the `M` branch of `uart_parse_command`
(`command/command_parser.c`, lines 39-53).  `ERR_BOUNDS` is the reply the
spec requires for out-of-workspace moves; it appears nowhere in
`command_parser.c` (only the archived PFE revision's `stepper_move_to_xy`
emits it). -/
inductive uart_reply where
  | OK_MOVE_XY (x y : Int)
  | ERR_INVALID_PARAMS_MOVE_XY
  | ERR_BOUNDS
deriving Repr, DecidableEq

/-- Constant `STEPS_PER_MM_H = STEPS_PER_REV_TOTAL / MM_PER_REV_BELT = 1600/40`
(`config/system_config.h`). -/
def STEPS_PER_MM_H : Int := 40

/-- Constant `STEPS_PER_MM_V = STEPS_PER_REV_TOTAL / MM_PER_REV_SCREW = 1600/8`
(`config/system_config.h`). -/
def STEPS_PER_MM_V : Int := 200

/-- The `M` branch of `uart_parse_command` (`command/command_parser.c`,
lines 39-53), after `parse_two_integers`: on a successful parse the
millimetre arguments are converted to steps and handed to
`stepper_move_relative` unconditionally — there is no bounds check of any
kind — and the reply is `OK:MOVE_XY:x,y`.  Result: the reply and the
relative step move started (`none` = no motion). -/
def uart_parse_command_M (parse_result : Option (Int × Int)) :
    uart_reply × Option (Int × Int) :=
  match parse_result with
  | some (x, y) =>
    (uart_reply.OK_MOVE_XY x y, some (x * STEPS_PER_MM_H, y * STEPS_PER_MM_V))
  | none => (uart_reply.ERR_INVALID_PARAMS_MOVE_XY, none)

/-- C8 (code bug): the dispatcher's `M` branch never emits `ERR:BOUNDS` and
always starts the motion: at the failing input `M:10000,0` (10 metres, far
outside the 300 mm workspace) it replies `OK:MOVE_XY:10000,0` and starts a
400000-step relative move; in general every well-formed `M` command is
accepted and converted, whatever the requested coordinates. -/
theorem m_command_no_bounds_check :
    (uart_parse_command_M (some (10000, 0))).1 = uart_reply.OK_MOVE_XY 10000 0 ∧
    (uart_parse_command_M (some (10000, 0))).2 = some (400000, 0) ∧
    (∀ x y : Int, uart_parse_command_M (some (x, y)) =
      (uart_reply.OK_MOVE_XY x y, some (x * STEPS_PER_MM_H, y * STEPS_PER_MM_V))) :=
  ⟨rfl, rfl, fun _ _ => rfl⟩

/-- Enum `stepper_state_t` from `drivers/stepper_driver.h`. -/
inductive stepper_state_t where
  | STEPPER_IDLE
  | STEPPER_MOVING
  | STEPPER_HOMING
  | STEPPER_ERROR
deriving Repr, DecidableEq

/-- The shared state touched by the unnamed `stepper_driver.c` variant
during one coordinated move: the deferred-completion flags
(`h_axis_completed`, `v_axis_completed`, `movement_completed_flag`), whether
the main loop has emitted `STEPPER_MOVE_COMPLETED` for this move, and the
per-axis motion state.  `move_completed_emitted` records the
`uart_send_response` call of `process_movement_completed`. -/
structure move_sys_state where
  h_axis_completed : Bool
  v_axis_completed : Bool
  movement_completed_flag : Bool
  move_completed_emitted : Bool
  h_state : stepper_state_t
  v_state : stepper_state_t
  h_pos : Int
  h_target : Int
  v_pos : Int
  v_target : Int
  h_dir : Bool
  v_dir : Bool
deriving Repr, DecidableEq

/-- State left by `stepper_move_absolute` (unnamed `stepper_driver.c`
variant, lines 293-402).  `h_allowed` / `v_allowed` are the results of
`limit_switch_check_{h,v}_movement` for the intended directions.  Faithful
to the source order: the per-axis completed flags are computed from the
distances BEFORE the limit veto runs (`h_axis_completed = (h_distance ==
0)`, lines 356-358), and a vetoed axis is then demoted to zero distance
(`target := current`) without being marked completed and without arming
(lines 363-378). -/
def stepper_move_absolute_state (h_cur v_cur h_tgt v_tgt : Int)
    (h_enabled v_enabled h_allowed v_allowed : Bool) : move_sys_state :=
  let h_distance := (h_tgt - h_cur).natAbs
  let v_distance := (v_tgt - v_cur).natAbs
  { h_axis_completed := decide (h_distance = 0)
    v_axis_completed := decide (v_distance = 0)
    movement_completed_flag := false
    move_completed_emitted := false
    h_state :=
      if 0 < h_distance ∧ h_enabled = true ∧ h_allowed = true then
        stepper_state_t.STEPPER_MOVING
      else stepper_state_t.STEPPER_IDLE
    v_state :=
      if 0 < v_distance ∧ v_enabled = true ∧ v_allowed = true then
        stepper_state_t.STEPPER_MOVING
      else stepper_state_t.STEPPER_IDLE
    h_pos := h_cur
    h_target :=
      if 0 < h_distance ∧ h_enabled = true ∧ ¬ h_allowed = true then h_cur
      else h_tgt
    v_pos := v_cur
    v_target :=
      if 0 < v_distance ∧ v_enabled = true ∧ ¬ v_allowed = true then v_cur
      else v_tgt
    h_dir := decide (h_cur < h_tgt)
    v_dir := decide (v_cur < v_tgt) }

/-- One interleaving event of the firmware while a move is in flight (no
new `M`/`S` command): a full H or V pulse-ISR step (possible only while the
axis timer is armed, i.e. the axis is MOVING, and performing the arrival
test of `ISR(TIMER1_COMPA_vect)` / `ISR(TIMER3_COMPA_vect)`); the Timer4
tick that consolidates the two completed flags into
`movement_completed_flag` (lines 39-47); the main loop's
`process_movement_completed`, which emits `STEPPER_MOVE_COMPLETED` when the
flag is set (lines 475-513); and a limit-supervisor stop of either axis
(`stepper_stop_horizontal` / `stepper_stop_vertical`), which disarms the
axis without touching the completed flags. -/
inductive move_step : move_sys_state → move_sys_state → Prop where
  | h_pulse (s : move_sys_state) (h : s.h_state = stepper_state_t.STEPPER_MOVING) :
    move_step s
      (if ((isr_full_step s.h_dir s.h_pos) - s.h_target).natAbs ≤ 1 then
        { s with
          h_pos := isr_full_step s.h_dir s.h_pos
          h_state := stepper_state_t.STEPPER_IDLE
          h_axis_completed := true }
      else { s with h_pos := isr_full_step s.h_dir s.h_pos })
  | v_pulse (s : move_sys_state) (h : s.v_state = stepper_state_t.STEPPER_MOVING) :
    move_step s
      (if ((isr_full_step s.v_dir s.v_pos) - s.v_target).natAbs ≤ 1 then
        { s with
          v_pos := isr_full_step s.v_dir s.v_pos
          v_state := stepper_state_t.STEPPER_IDLE
          v_axis_completed := true }
      else { s with v_pos := isr_full_step s.v_dir s.v_pos })
  | timer4_tick (s : move_sys_state) :
    move_step s
      (if s.h_axis_completed = true ∧ s.v_axis_completed = true ∧
          s.movement_completed_flag = false then
        { s with movement_completed_flag := true }
      else s)
  | main_loop (s : move_sys_state) :
    move_step s
      (if s.movement_completed_flag = true then
        { s with
          movement_completed_flag := false
          move_completed_emitted := true
          h_axis_completed := false
          v_axis_completed := false }
      else s)
  | limit_stop_h (s : move_sys_state) :
    move_step s { s with h_state := stepper_state_t.STEPPER_IDLE, h_target := s.h_pos }
  | limit_stop_v (s : move_sys_state) :
    move_step s { s with v_state := stepper_state_t.STEPPER_IDLE, v_target := s.v_pos }

/-- Reachability under in-move events. -/
def move_reach : move_sys_state → move_sys_state → Prop :=
  Relation.ReflTransGen move_step

/-- The stuck-move invariant: the H flag is down, the H axis is disarmed,
the consolidated flag is down, and no completion reply has been emitted. -/
def stuck_inv (s : move_sys_state) : Prop :=
  s.h_axis_completed = false ∧ s.h_state = stepper_state_t.STEPPER_IDLE ∧
    s.movement_completed_flag = false ∧ s.move_completed_emitted = false

lemma move_step_preserves_stuck (s s2 : move_sys_state) (hstep : move_step s s2)
    (hinv : stuck_inv s) : stuck_inv s2 := by
  obtain ⟨h1, h2, h3, h4⟩ := hinv
  cases hstep with
  | h_pulse h => rw [h2] at h; exact absurd h (by decide)
  | v_pulse h =>
    unfold stuck_inv
    split_ifs <;> simp_all
  | timer4_tick =>
    unfold stuck_inv
    split_ifs <;> simp_all
  | main_loop =>
    unfold stuck_inv
    split_ifs <;> simp_all
  | limit_stop_h => exact ⟨h1, rfl, h3, h4⟩
  | limit_stop_v => exact ⟨h1, h2, h3, h4⟩

/-- C5 (code bug): consider a move in which the H axis has non-zero distance
but is vetoed at start by a triggered limit switch (so it is demoted to zero
distance), while the V axis is free to run.  Because
`stepper_move_absolute` computes `h_axis_completed = (h_distance == 0)`
BEFORE the veto demotes the axis, the H flag starts false, the H axis is
never armed, and no in-move event can raise the flag: in every reachable
state the completed flags never consolidate and the single framed
`STEPPER_MOVE_COMPLETED` reply is never emitted — even after the V axis
finishes. -/
theorem vetoed_axis_never_completes (h_cur v_cur h_tgt v_tgt : Int)
    (v_allowed : Bool) (hh : h_cur ≠ h_tgt)
    (s : move_sys_state)
    (hreach : move_reach
      (stepper_move_absolute_state h_cur v_cur h_tgt v_tgt true true false v_allowed)
      s) :
    s.move_completed_emitted = false ∧ s.movement_completed_flag = false ∧
      s.h_axis_completed = false := by
  have hinit : stuck_inv
      (stepper_move_absolute_state h_cur v_cur h_tgt v_tgt true true false v_allowed) := by
    unfold stepper_move_absolute_state stuck_inv
    have hd : ¬ (h_tgt - h_cur).natAbs = 0 := by
      intro h
      exact hh (by omega)
    dsimp only
    refine ⟨by simp [hd], ?_, rfl, rfl⟩
    rw [if_neg (by simp)]
  have hinv : stuck_inv s := by
    induction hreach with
    | refl => exact hinit
    | tail hsteps hstep ih => exact move_step_preserves_stuck _ _ hstep ih
  exact ⟨hinv.2.2.2, hinv.2.2.1, hinv.1⟩

/-- Closed instance of `vetoed_axis_never_completes`: the post-setup state
itself, for the vetoed move from `(0,0)` to `(10,5)`. -/
theorem vetoed_axis_never_completes_witness :
    (stepper_move_absolute_state 0 0 10 5 true true false true).move_completed_emitted
        = false ∧
      (stepper_move_absolute_state 0 0 10 5 true true false
        true).movement_completed_flag = false ∧
      (stepper_move_absolute_state 0 0 10 5 true true false true).h_axis_completed
        = false :=
  vetoed_axis_never_completes 0 0 10 5 true (by decide) _ Relation.ReflTransGen.refl
